import Mathlib

/-!
Shallow embedding of `src/main.py` (an RSS → Telegram IT-news bot):
text cleaning (`_clean_html`), relevance scoring (`calculate_it_score`,
`is_it_related`), content fingerprinting (MD5 over title + cleaned
description prefix), the SQLite-backed dedup store (`is_post_sent`,
`save_post`), description truncation inside `format_post`, the feed
processing loop (`fetch_articles`) and the delivery loop (`run` /
`send_post`).

Python strings are modelled as Lean `String` (a list of unicode code
points, matching Python's code-point indexing for slices and `len`).
-/

set_option maxRecDepth 100000

namespace ITNews

/-- Python `str.lower`, restricted to the alphabets this program's texts
use: ASCII letters and Cyrillic (`А`–`Я`, `Ё`). All keywords in the
program's dictionary are already lowercase. -/
def pyLowerChar (c : Char) : Char :=
  if 'A' ≤ c ∧ c ≤ 'Z' then Char.ofNat (c.toNat + 32)
  else if 'А' ≤ c ∧ c ≤ 'Я' then Char.ofNat (c.toNat + 32)
  else if c = 'Ё' then 'ё'
  else c

def pyLower (s : String) : String := ⟨s.data.map pyLowerChar⟩

/-- Whitespace in the sense of the regex `\s` (the characters that occur
in feed texts). -/
def isSpace (c : Char) : Bool := c = ' ' || c = '\t' || c = '\n' || c = '\r'

/-- Replace each maximal whitespace run by a single space: this models
`re.sub(r'\s+', ' ', text)` in `_clean_html`. -/
def squeezeSpaces : List Char → List Char
  | [] => []
  | [c] => [c]
  | c :: d :: cs =>
    if c = ' ' && d = ' ' then squeezeSpaces (d :: cs)
    else c :: squeezeSpaces (d :: cs)

def collapseWs (cs : List Char) : List Char :=
  squeezeSpaces (cs.map fun c => if isSpace c then ' ' else c)

/-- Python `str.strip()` on the whitespace characters of `isSpace`. -/
def stripChars (cs : List Char) : List Char :=
  ((cs.dropWhile isSpace).reverse.dropWhile isSpace).reverse

/-- Split a character stream into the text segments lying outside `<...>`
tag spans (the tag contents are dropped). `inTag` says whether the scan
position is currently inside a tag. -/
def splitOutsideTags : List Char → Bool → List Char → List (List Char)
  | [], _, cur => [cur.reverse]
  | c :: cs, true, cur =>
    if c = '>' then splitOutsideTags cs false cur
    else splitOutsideTags cs true cur
  | c :: cs, false, cur =>
    if c = '<' then cur.reverse :: splitOutsideTags cs true []
    else splitOutsideTags cs false (c :: cur)

/-- The stripped, nonempty text segments of a markup string: models
`BeautifulSoup(html, 'html.parser').get_text(separator=' ', strip=True)`,
which joins the stripped text nodes with single spaces. Entity decoding
and recovery from malformed markup are not exercised by this model. -/
def getTextSegs (cs : List Char) : List (List Char) :=
  ((splitOutsideTags cs false []).map stripChars).filter fun l => !l.isEmpty

/-- `ITNewsBot._clean_html` (main.py lines 362–373): empty input yields
`""`; otherwise the tag-stripped text is joined with single spaces,
whitespace runs are collapsed (`re.sub(r'\s+', ' ', ...)`) and the result
is stripped. The `except` fallback (return the input unmodified) is not
reachable in the model since the model parse is total. -/
def cleanHtml (s : String) : String :=
  if s = "" then ""
  else ⟨stripChars (collapseWs (List.intercalate [' '] (getTextSegs s.data)))⟩

/-- Python's substring test `pat in hay`. -/
def strContains (hay pat : String) : Bool :=
  (List.range (hay.data.length + 1)).any fun i => pat.data.isPrefixOf (hay.data.drop i)

/-- `IT_KEYWORDS` (main.py lines 32–86), transcribed verbatim including
the duplicated entries (`sql`, `android`, `ios`, `хостинг`), each of
which contributes its own point in the scoring loop. -/
def ITKeywords : List String := [
  "программирование", "разработка", "код", "github", "git", "api", "sdk",
  "programming", "development", "code", "software", "developer",
  "python", "javascript", "java", "c++", "c#", "go", "golang", "rust",
  "php", "ruby", "swift", "kotlin", "typescript", "html", "css", "sql",
  "react", "vue", "angular", "django", "flask", "spring", "laravel",
  "node.js", "express", "jquery", "bootstrap", "tailwind",
  "база данных", "sql", "nosql", "mysql", "postgresql", "mongodb",
  "redis", "elasticsearch", "database", "db",
  "linux", "ubuntu", "debian", "windows", "macos", "ios", "android",
  "unix", "centos", "fedora",
  "docker", "kubernetes", "devops", "ci/cd", "aws", "azure", "gcp",
  "cloud", "облако", "сервер", "хостинг", "vps", "виртуализация",
  "безопасность", "security", "кибербезопасность", "hack", "vulnerability",
  "уязвимость", "шифрование", "encryption", "firewall",
  "искусственный интеллект", "ai", "машинное обучение", "ml",
  "нейросеть", "нейронная сеть", "data science", "big data",
  "анализ данных", "data analysis",
  "мобильное приложение", "android", "ios", "react native", "flutter",
  "веб", "web", "сайт", "интернет", "браузер", "chrome", "firefox",
  "safari", "http", "https", "ssl", "tls", "домен", "хостинг",
  "процессор", "cpu", "gpu", "видеокарта", "nvidia", "amd", "intel",
  "оперативная память", "ram", "ssd", "жесткий диск", "hdd",
  "microsoft", "google", "apple", "amazon", "meta", "facebook",
  "yandex", "vk", "telegram", "whatsapp", "discord",
  "json", "xml", "rest", "graphql", "soap", "websocket",
  "agile", "scrum", "kanban", "waterfall"]

/-- `ITNewsBot.calculate_it_score` (main.py lines 260–284): +1 per
keyword list entry found in the lowercased text, +2 for a code-hosting
domain, +1 for a `http`/`www.` occurrence, +1 for length above 500.
Empty text scores 0. -/
def calculateItScore (text : String) : Nat :=
  if text = "" then 0
  else
    let tl := pyLower text
    (ITKeywords.filter fun k => strContains tl (pyLower k)).length
      + (if ["github.com", "stackoverflow", "gitlab"].any (fun t => strContains tl t) then 2 else 0)
      + (if strContains tl "http" || strContains tl "www." then 1 else 0)
      + (if 500 < text.length then 1 else 0)

/-- `ITNewsBot.is_it_related` (main.py lines 286–292): the combined text
is `f"{title} {description}"` and the entry is relevant iff its score
reaches `min_score` (default 3). -/
def isItRelated (title description : String) (minScore : Nat) : Bool :=
  decide (minScore ≤ calculateItScore (title ++ " " ++ description))

/-! ### MD5 (`hashlib.md5(...).hexdigest()` over the UTF-8 encoding)

The fingerprint in `fetch_articles` is
`hashlib.md5(content_for_hash.encode()).hexdigest()`. The digest is
implemented below over `Nat` with explicit reduction modulo `2^32`,
following RFC 1321, and validated against the standard test vectors. -/

/-- UTF-8 encoding of one code point (Python `str.encode()` per char). -/
def utf8Bytes (c : Char) : List Nat :=
  let n := c.toNat
  if n < 128 then [n]
  else if n < 2048 then [192 + n / 64, 128 + n % 64]
  else if n < 65536 then [224 + n / 4096, 128 + (n / 64) % 64, 128 + n % 64]
  else [240 + n / 262144, 128 + (n / 4096) % 64, 128 + (n / 64) % 64, 128 + n % 64]

def strBytes (s : String) : List Nat := (s.data.map utf8Bytes).flatten

/-- The 64 MD5 round constants `floor(abs(sin(i+1)) * 2^32)`. -/
def md5K : List Nat := [
  0xd76aa478, 0xe8c7b756, 0x242070db, 0xc1bdceee,
  0xf57c0faf, 0x4787c62a, 0xa8304613, 0xfd469501,
  0x698098d8, 0x8b44f7af, 0xffff5bb1, 0x895cd7be,
  0x6b901122, 0xfd987193, 0xa679438e, 0x49b40821,
  0xf61e2562, 0xc040b340, 0x265e5a51, 0xe9b6c7aa,
  0xd62f105d, 0x02441453, 0xd8a1e681, 0xe7d3fbc8,
  0x21e1cde6, 0xc33707d6, 0xf4d50d87, 0x455a14ed,
  0xa9e3e905, 0xfcefa3f8, 0x676f02d9, 0x8d2a4c8a,
  0xfffa3942, 0x8771f681, 0x6d9d6122, 0xfde5380c,
  0xa4beea44, 0x4bdecfa9, 0xf6bb4b60, 0xbebfbc70,
  0x289b7ec6, 0xeaa127fa, 0xd4ef3085, 0x04881d05,
  0xd9d4d039, 0xe6db99e5, 0x1fa27cf8, 0xc4ac5665,
  0xf4292244, 0x432aff97, 0xab9423a7, 0xfc93a039,
  0x655b59c3, 0x8f0ccc92, 0xffeff47d, 0x85845dd1,
  0x6fa87e4f, 0xfe2ce6e0, 0xa3014314, 0x4e0811a1,
  0xf7537e82, 0xbd3af235, 0x2ad7d2bb, 0xeb86d391]

/-- The 64 MD5 per-round left-rotation amounts. -/
def md5S : List Nat := [
  7, 12, 17, 22, 7, 12, 17, 22, 7, 12, 17, 22, 7, 12, 17, 22,
  5, 9, 14, 20, 5, 9, 14, 20, 5, 9, 14, 20, 5, 9, 14, 20,
  4, 11, 16, 23, 4, 11, 16, 23, 4, 11, 16, 23, 4, 11, 16, 23,
  6, 10, 15, 21, 6, 10, 15, 21, 6, 10, 15, 21, 6, 10, 15, 21]

def m32 : Nat := 4294967296

def add32 (x y : Nat) : Nat := (x + y) % m32

/-- 32-bit complement, valid for inputs below `2^32`. -/
def not32 (x : Nat) : Nat := 4294967295 - x

def rotl32 (x s : Nat) : Nat := ((x * 2 ^ s) % m32) ||| (x / 2 ^ (32 - s))

/-- MD5 padding: `0x80`, zeros to 56 mod 64, then the bit length as
eight little-endian bytes. -/
def padBytes (msg : List Nat) : List Nat :=
  let len := msg.length
  msg ++ [128] ++ List.replicate ((119 - len % 64) % 64) 0
    ++ (List.range 8).map fun i => ((8 * len) >>> (8 * i)) % 256

def bytesToWord (bs : List Nat) : Nat :=
  bs.getD 0 0 + 256 * bs.getD 1 0 + 65536 * bs.getD 2 0 + 16777216 * bs.getD 3 0

def blockWords (padded : List Nat) (blk : Nat) : List Nat :=
  (List.range 16).map fun j => bytesToWord ((padded.drop (64 * blk + 4 * j)).take 4)

def md5Step (M : List Nat) (st : Nat × Nat × Nat × Nat) (i : Nat) : Nat × Nat × Nat × Nat :=
  let (A, B, C, D) := st
  let F :=
    if i < 16 then (B &&& C) ||| (not32 B &&& D)
    else if i < 32 then (D &&& B) ||| (not32 D &&& C)
    else if i < 48 then B ^^^ C ^^^ D
    else C ^^^ (B ||| not32 D)
  let g :=
    if i < 16 then i
    else if i < 32 then (5 * i + 1) % 16
    else if i < 48 then (3 * i + 5) % 16
    else (7 * i) % 16
  let tmp := add32 (add32 (add32 F A) (md5K.getD i 0)) (M.getD g 0)
  (D, add32 B (rotl32 tmp (md5S.getD i 0)), B, C)

def md5Block (st : Nat × Nat × Nat × Nat) (M : List Nat) : Nat × Nat × Nat × Nat :=
  let (A, B, C, D) := (List.range 64).foldl (md5Step M) st
  (add32 st.1 A, add32 st.2.1 B, add32 st.2.2.1 C, add32 st.2.2.2 D)

def md5Digest (msg : List Nat) : Nat × Nat × Nat × Nat :=
  let padded := padBytes msg
  (List.range (padded.length / 64)).foldl
    (fun st blk => md5Block st (blockWords padded blk))
    (1732584193, 4023233417, 2562383102, 271733878)

def hexDigit (n : Nat) : Char := if n < 10 then Char.ofNat (48 + n) else Char.ofNat (87 + n)

def byteHex (b : Nat) : List Char := [hexDigit (b / 16), hexDigit (b % 16)]

def wordHexLE (w : Nat) : List Char :=
  byteHex (w % 256) ++ byteHex ((w / 256) % 256)
    ++ byteHex ((w / 65536) % 256) ++ byteHex ((w / 16777216) % 256)

/-- `hashlib.md5(s.encode()).hexdigest()`. -/
def md5hex (s : String) : String :=
  let d := md5Digest (strBytes s)
  ⟨wordHexLE d.1 ++ wordHexLE d.2.1 ++ wordHexLE d.2.2.1 ++ wordHexLE d.2.2.2⟩

/-- RFC 1321 test vector: the empty message. -/
theorem md5hex_rfc_vector_empty : md5hex "" = "d41d8cd98f00b204e9800998ecf8427e" := by
  decide

/-- RFC 1321 test vector: `"abc"`. -/
theorem md5hex_rfc_vector_abc : md5hex "abc" = "900150983cd24fb0d6963f7d28e17f72" := by
  decide

/-! ### Data model and the dedup store -/

/-- One entry of `IT_FEEDS`: url, display name, hashtag line and
category list. -/
structure FeedConfig where
  url : String
  name : String
  hashtags : String
  categories : List String
  deriving Repr, DecidableEq

/-- One raw feed entry as `fetch_articles` reads it: `entry.get('title',
'Без названия')`, `entry.get('summary', '')`, `entry.link` (attribute
access: an entry without a link raises and is skipped, so the model
keeps `link` total), `entry.get('published', '')`. -/
structure RawEntry where
  title : Option String
  summary : Option String
  link : String
  published : Option String
  deriving Repr, DecidableEq

/-- Outcome of `feedparser.parse` on one source: either the per-feed
`except` branch fires (network error, parse failure — the feed is
skipped with `continue`) or a list of entries is available. -/
inductive FetchResult where
  | err : FetchResult
  | ok : List RawEntry → FetchResult
  deriving Repr, DecidableEq

/-- The article dict built in `fetch_articles` (main.py lines 332–343). -/
structure Article where
  title : String
  link : String
  description : String
  source : String
  hashtags : String
  content_hash : String
  it_score : Nat
  category : String
  published : String
  full_text : String
  deriving Repr, DecidableEq

/-- One row of the `sent_posts` table (the columns `save_post` writes;
`content_hash` carries the UNIQUE constraint). -/
structure SentPost where
  content_hash : String
  title : String
  link : String
  source : String
  category : String
  it_score : Nat
  deriving Repr, DecidableEq

/-- The `sent_posts` table, newest row first. -/
abbrev Store := List SentPost

/-- `DatabaseManager.is_post_sent` (main.py lines 174–179):
`SELECT id FROM sent_posts WHERE content_hash = ?` has a row iff some
stored record carries the hash. -/
def isPostSent (store : Store) (contentHash : String) : Bool :=
  store.any fun p => p.content_hash == contentHash

/-- `DatabaseManager.save_post` (main.py lines 181–195).
`INSERT OR IGNORE` inserts the row only when no row with the same
`content_hash` exists; on a connection/insert error the exception is
caught and `None` is returned with the table unchanged. The returned
`Bool` is the truthiness of the returned `lastrowid` (`None` on error,
`0`/falsy when the insert was ignored, a fresh positive rowid on a real
insert). `storeOk = false` models the persistent store being
unreachable. -/
def savePost (storeOk : Bool) (p : SentPost) (store : Store) : Bool × Store :=
  if !storeOk then (false, store)
  else if isPostSent store p.content_hash then (false, store)
  else (true, p :: store)

/-- Rows of the table carrying a given fingerprint (the UNIQUE
constraint keeps this at most 1). -/
def countHash (store : Store) (contentHash : String) : Nat :=
  (store.filter fun p => p.content_hash == contentHash).length

/-! ### fetch_articles -/

/-- `content_for_hash = f"{title}{description[:500]}"` followed by
`hashlib.md5(...).hexdigest()` (main.py lines 318–320). `title` is the
raw feed title; `description` is the `_clean_html`-cleaned summary. -/
def contentHash (title description : String) : String :=
  md5hex (title ++ ⟨description.data.take 500⟩)

/-- The fingerprint `fetch_articles` computes for one raw entry. -/
def fingerprintOfEntry (e : RawEntry) : String :=
  contentHash (e.title.getD "Без названия") (cleanHtml (e.summary.getD ""))

/-- The per-entry body of the `fetch_articles` loop (main.py lines
308–345): relevance gate, fingerprint, dedup lookup against the store,
then the article dict. Returns `none` when the entry is skipped. -/
def processEntry (cfg : FeedConfig) (store : Store) (e : RawEntry) : Option Article :=
  let title := e.title.getD "Без названия"
  let description := cleanHtml (e.summary.getD "")
  if !isItRelated title description 3 then none
  else
    let hash := contentHash title description
    if isPostSent store hash then none
    else some {
      title := ⟨title.data.take 200⟩
      link := e.link
      description := ⟨description.data.take 800⟩
      source := cfg.name
      hashtags := cfg.hashtags
      content_hash := hash
      it_score := calculateItScore (title ++ " " ++ description)
      category := cfg.categories.headD "IT"
      published := e.published.getD ""
      full_text := title ++ ". " ++ ⟨description.data.take 500⟩ }

/-- Score-descending comparison used by the sort in `fetch_articles`. -/
def scoreGe (x y : Article) : Prop := y.it_score ≤ x.it_score

instance : DecidableRel scoreGe := fun x y => Nat.decLe y.it_score x.it_score

instance : IsTotal Article scoreGe :=
  ⟨fun x y => Nat.le_total y.it_score x.it_score⟩

instance : IsTrans Article scoreGe :=
  ⟨fun _ _ _ hab hbc => Nat.le_trans hbc hab⟩

/-- `it_articles.sort(key=lambda x: x['it_score'], reverse=True)`
(main.py line 359): Python's stable sort by score descending, i.e. the
unique score-descending permutation that keeps the original relative
order of equal-score articles. -/
def sortArticles (articles : List Article) : List Article :=
  articles.insertionSort scoreGe

/-- `ITNewsBot.fetch_articles` (main.py lines 294–360): each source is
processed inside its own `try`; a fetch error (`FetchResult.err`) or an
empty entry list contributes nothing and the loop continues with the
next source. At most the first 15 entries per feed are read. The
collected articles are sorted by score descending. -/
def fetchArticles (feeds : List (FeedConfig × FetchResult)) (store : Store) : List Article :=
  sortArticles <| (feeds.map fun fr =>
    match fr.2 with
    | .err => []
    | .ok entries => (entries.take 15).filterMap (processEntry fr.1 store)).flatten

/-! ### send_post and run -/

/-- `ITNewsBot.send_post` (main.py lines 422–457). `sendOk` is the
outcome of `bot.send_message` (`false` ⇒ a `TelegramError`/exception is
raised before anything is stored). Only after a successful send is
`save_post` called; its result only selects a log line — `send_post`
returns `True` whenever the message went out, whether or not the record
was persisted. -/
def sendPost (sendOk storeOk : Bool) (a : Article) (store : Store) : Bool × Store :=
  if !sendOk then (false, store)
  else
    (true, (savePost storeOk
      { content_hash := a.content_hash, title := a.title, link := a.link,
        source := a.source, category := a.category, it_score := a.it_score }
      store).2)

/-- The delivery loop inside `run` (main.py lines 484–490): for each
article (the caller passes `articles[:3]`), if its score reaches the
threshold 3 it is sent; a successful send increments `sent_count`. A
failed send leaves the store untouched and the loop proceeds to the
next article. Returns the successfully sent articles in order together
with the final store. -/
def sendLoop (sendOk : Article → Bool) (storeOk : Bool) :
    List Article → Store → List Article × Store
  | [], store => ([], store)
  | a :: rest, store =>
    if 3 ≤ a.it_score then
      let r := sendPost (sendOk a) storeOk a store
      let rec' := sendLoop sendOk storeOk rest r.2
      (if r.1 then a :: rec'.1 else rec'.1, rec'.2)
    else sendLoop sendOk storeOk rest store

/-- `ITNewsBot.run` (main.py lines 459–501), delivery-wise: fetch and
filter the articles, then deliver the best ones — `for article in
articles[:3]`. (The empty-`articles` branch sends a statistics message,
not a news item, and ends with `return`; the periodic-cleanup block
below the loop is never reached: `stats` is unbound there, the
`NameError` is swallowed by the outer `except`.) -/
def runM (feeds : List (FeedConfig × FetchResult)) (sendOk : Article → Bool)
    (storeOk : Bool) (store : Store) : List Article × Store :=
  sendLoop sendOk storeOk ((fetchArticles feeds store).take 3) store

/-! ### Description truncation in format_post -/

/-- The sentence-terminating characters searched by
`max(truncated.rfind('.'), truncated.rfind('!'), truncated.rfind('?'))`. -/
def sentenceEnds : List Char := ['.', '!', '?']

/-- Index of the last sentence terminator in a character list (`none`
when every `rfind` returns -1). -/
def lastTermIdx (cs : List Char) : Option Nat :=
  ((cs.enum.filter fun p => sentenceEnds.contains p.2).map fun p => p.1).getLast?

/-- The description truncation inside `ITNewsBot.format_post` (main.py
lines 381–389): descriptions of length ≤ 600 pass unchanged; longer
ones are cut to 600 characters, and if the last '.', '!' or '?' of that
prefix sits at an index above 400 the text is cut just after it (no
ellipsis), otherwise the 600-character prefix gets `"..."` appended. -/
def truncateDescription (s : String) : String :=
  if s.length ≤ 600 then s
  else
    let t := s.data.take 600
    match lastTermIdx t with
    | some i => if 400 < i then ⟨t.take (i + 1)⟩ else ⟨t⟩ ++ "..."
    | none => ⟨t⟩ ++ "..."

/-- Modelled from the spec: the truncation helper `truncate(text,
max_len)` of spec §4.1 — unchanged when `len(text) <= max_len`,
otherwise cut at `max_len`; if the last sentence terminator of the cut
prefix lies at an offset greater than 70% of `max_len`, cut there
instead (keeping the terminator), appending an ellipsis marker in both
cases. Stated for comparison with `truncateDescription`, the code's
actual truncation. -/
def truncateSpec (s : String) (maxLen : Nat) : String :=
  if s.length ≤ maxLen then s
  else
    let t := s.data.take maxLen
    match lastTermIdx t with
    | some i => if 7 * maxLen < 10 * i then ⟨t.take (i + 1)⟩ ++ "..." else ⟨t⟩ ++ "..."
    | none => ⟨t⟩ ++ "..."

/-! ### Helper lemmas -/

/-- The articles a `sendLoop` pass reports as sent are exactly the input
articles that clear the score threshold and whose transport send
succeeds; the store state plays no role in this selection. -/
theorem sendLoop_sent_eq_filter (f : Article → Bool) (ok : Bool) :
    ∀ (arts : List Article) (store : Store),
      (sendLoop f ok arts store).1
        = arts.filter fun a => decide (3 ≤ a.it_score) && f a := by
  intro arts
  induction arts with
  | nil => intro store; rfl
  | cons a rest ih =>
    intro store
    by_cases hs : 3 ≤ a.it_score
    · by_cases hf : f a = true
      · simp [sendLoop, sendPost, hs, hf, ih]
      · simp [sendLoop, sendPost, hs, hf, ih]
    · simp [sendLoop, hs, ih]

theorem sendLoop_sent_mem {f : Article → Bool} {ok : Bool} {arts : List Article}
    {store : Store} {a : Article} (h : a ∈ (sendLoop f ok arts store).1) : a ∈ arts := by
  rw [sendLoop_sent_eq_filter] at h
  exact List.mem_of_mem_filter h

/-- `save_post` never removes a recorded fingerprint. -/
theorem isPostSent_mono_savePost {store : Store} {h : String}
    (hmem : isPostSent store h = true) (ok : Bool) (p : SentPost) :
    isPostSent (savePost ok p store).2 h = true := by
  unfold savePost
  split
  · exact hmem
  · split
    · exact hmem
    · simpa [isPostSent] using Or.inr (by simpa [isPostSent] using hmem)

/-- A successful `save_post` leaves the fingerprint visible to
`is_post_sent`. -/
theorem isPostSent_savePost_self (p : SentPost) (store : Store) :
    isPostSent (savePost true p store).2 p.content_hash = true := by
  unfold savePost
  split
  · simp at *
  · split
    · assumption
    · simp [isPostSent]

/-- `send_post` never removes a recorded fingerprint. -/
theorem isPostSent_mono_sendPost {store : Store} {h : String}
    (hmem : isPostSent store h = true) (so ok : Bool) (a : Article) :
    isPostSent (sendPost so ok a store).2 h = true := by
  unfold sendPost
  split
  · exact hmem
  · exact isPostSent_mono_savePost hmem ok _

/-- The delivery loop never removes a recorded fingerprint. -/
theorem isPostSent_mono_sendLoop {h : String} (f : Article → Bool) (ok : Bool) :
    ∀ (arts : List Article) (store : Store), isPostSent store h = true →
      isPostSent (sendLoop f ok arts store).2 h = true := by
  intro arts
  induction arts with
  | nil => intro store hmem; exact hmem
  | cons a rest ih =>
    intro store hmem
    by_cases hs : 3 ≤ a.it_score
    · simpa [sendLoop, hs] using ih _ (isPostSent_mono_sendPost hmem _ _ _)
    · simpa [sendLoop, hs] using ih _ hmem

/-- With a reachable store, every article the delivery loop reports as
sent has its fingerprint recorded in the loop's final store. -/
theorem sendLoop_sent_recorded (f : Article → Bool) :
    ∀ (arts : List Article) (store : Store) (a : Article),
      a ∈ (sendLoop f true arts store).1 →
      isPostSent (sendLoop f true arts store).2 a.content_hash = true := by
  intro arts
  induction arts with
  | nil => intro store a ha; simp [sendLoop] at ha
  | cons b rest ih =>
    intro store a ha
    by_cases hs : 3 ≤ b.it_score
    · simp only [sendLoop, hs, if_pos] at ha ⊢
      by_cases hf : f b = true
    -- send succeeds: the head is recorded right away, then preserved
      · simp only [sendPost, hf, Bool.not_true, Bool.false_eq_true, if_false] at ha ⊢
        rcases List.mem_cons.mp (by simpa using ha) with rfl | hrest
        · exact isPostSent_mono_sendLoop f true rest _ (isPostSent_savePost_self _ _)
        · exact ih _ a hrest
      · simp only [sendPost, hf, Bool.not_false, if_true] at ha ⊢
        simp only [Bool.false_eq_true, if_false] at ha
        exact ih _ a ha
    · simp only [sendLoop, hs, if_neg, if_false] at ha ⊢
      exact ih _ a ha

/-- An article built by the per-entry loop body carries a fingerprint
that was not yet recorded at fetch time. -/
theorem processEntry_not_sent {cfg : FeedConfig} {store : Store} {e : RawEntry}
    {a : Article} (h : processEntry cfg store e = some a) :
    isPostSent store a.content_hash = false := by
  unfold processEntry at h
  dsimp only at h
  split at h
  · exact absurd h (by simp)
  · split at h
    · exact absurd h (by simp)
    · cases h
      simp_all

/-- Everything `fetch_articles` returns passed the dedup check against
the store it was given. -/
theorem mem_fetchArticles_not_sent {feeds : List (FeedConfig × FetchResult)}
    {store : Store} {a : Article} (h : a ∈ fetchArticles feeds store) :
    isPostSent store a.content_hash = false := by
  unfold fetchArticles sortArticles at h
  rw [(List.perm_insertionSort scoreGe _).mem_iff, List.mem_flatten] at h
  obtain ⟨l, hl, hal⟩ := h
  rw [List.mem_map] at hl
  obtain ⟨fr, _, rfl⟩ := hl
  rcases hfr : fr.2 with _ | entries <;> rw [hfr] at hal
  · simp at hal
  · obtain ⟨e, _, he⟩ := List.mem_filterMap.mp hal
    exact processEntry_not_sent he

/-- Inserting an article into a list keeps the sublist of articles of
any fixed score unchanged apart from prepending the new article when it
has that score: the key step of the stability argument. -/
theorem filter_score_orderedInsert (c : Nat) (a : Article) :
    ∀ l : List Article,
      (l.orderedInsert scoreGe a).filter (fun x => decide (x.it_score = c))
        = if a.it_score = c then a :: l.filter (fun x => decide (x.it_score = c))
          else l.filter (fun x => decide (x.it_score = c)) := by
  intro l
  induction l with
  | nil =>
    by_cases hca : a.it_score = c <;> simp [List.orderedInsert, hca]
  | cons b l ih =>
    by_cases hab : scoreGe a b
    · by_cases hca : a.it_score = c <;>
        simp [List.orderedInsert, hab, hca, List.filter_cons]
    · by_cases hca : a.it_score = c <;> by_cases hcb : b.it_score = c
      · exact absurd (by unfold scoreGe; omega : scoreGe a b) hab
      all_goals simp [List.orderedInsert, hab, hca, hcb, List.filter_cons, ih]

/-- Stability of the score sort: for every score value, the articles
carrying that score appear in the sorted output in exactly their
original order. -/
theorem filter_score_sortArticles (c : Nat) :
    ∀ l : List Article,
      (sortArticles l).filter (fun x => decide (x.it_score = c))
        = l.filter (fun x => decide (x.it_score = c)) := by
  intro l
  induction l with
  | nil => rfl
  | cons a l ih =>
    by_cases hca : a.it_score = c <;>
      simp [sortArticles, List.insertionSort, filter_score_orderedInsert, hca,
        List.filter_cons, ← ih, sortArticles]

/-! ### Concrete fixtures used by counterexamples and witnesses -/

def cfgA : FeedConfig :=
  { url := "https://a.example/rss", name := "A", hashtags := "#A", categories := ["IT"] }

def cfgB : FeedConfig :=
  { url := "https://b.example/rss", name := "B", hashtags := "#B",
    categories := ["Linux", "IT"] }

/-- A relevant entry (three keyword hits: docker, kubernetes, devops). -/
def mkEntry (t pub : String) : RawEntry :=
  { title := some t, summary := some "", link := "https://b.example/item", published := some pub }

def eAlpha : RawEntry := mkEntry "docker kubernetes devops alpha" "2024-01-01"

def eBeta : RawEntry := mkEntry "docker kubernetes devops beta" "2024-06-01"

def entriesFive : List RawEntry :=
  (["one", "two", "three", "four", "five"].map fun w =>
    mkEntry ("docker kubernetes devops " ++ w) "2024-01-01")

/-- An article fixture with score 5. -/
def artFix : Article :=
  { title := "t", link := "l", description := "d", source := "B", hashtags := "#B",
    content_hash := "h", it_score := 5, category := "IT", published := "",
    full_text := "t. d" }

/-- A stored-row fixture. -/
def sentFix : SentPost :=
  { content_hash := "h1", title := "t", link := "l", source := "B",
    category := "IT", it_score := 5 }

/-! ### Claims -/

/-- C1, counterexample: a single `run()` over one feed holding two
relevant, not-yet-sent entries delivers two items in that run, so
"at most one new item per run" is false; the loop is
`for article in articles[:3]`. -/
theorem C1_counterexample :
    (runM [(cfgB, .ok [eAlpha, eBeta])] (fun _ => true) true []).1.length = 2 := by
  decide

/-- C1, amended: each invocation of `run()` delivers at most three new
items to the messaging channel (`articles[:3]`), for every feed state,
transport behaviour, store health and store contents. -/
theorem C1_at_most_three_per_run (feeds : List (FeedConfig × FetchResult))
    (sendOk : Article → Bool) (storeOk : Bool) (store : Store) :
    (runM feeds sendOk storeOk store).1.length ≤ 3 := by
  unfold runM
  rw [sendLoop_sent_eq_filter]
  calc (((fetchArticles feeds store).take 3).filter _).length
      ≤ ((fetchArticles feeds store).take 3).length := List.length_filter_le _ _
    _ ≤ 3 := List.length_take_le 3 _

/-- C3, counterexample: with the transport send succeeding and the
persistent store failing (`save_post` catches the error and returns
`None`), `send_post` still returns `True` and the run counts the
candidate as delivered, with no stored record — refuting "a send is
never counted as delivered without a corresponding stored record". -/
theorem C3_counterexample : sendPost true false artFix [] = (true, []) := rfl

/-- C3, amended: if persisting the delivery record fails, no record is
stored (that part of the claim holds), but `send_post` nevertheless
reports success for the candidate, so the run does claim delivery
success; the persistence failure is only logged. -/
theorem C3_store_failure_still_claims_success (a : Article) (store : Store) :
    sendPost true false a store = (true, store) := rfl

/-- C7: a candidate's fingerprint is recorded only after its send is
acknowledged: a failed send returns `False` and leaves the store
untouched (first conjunct), and the set of candidates reported sent is
a per-candidate filter of the input — a failure on one candidate never
blocks the later ones (second conjunct). -/
theorem C7_record_only_after_acknowledged_send :
    (∀ (ok : Bool) (a : Article) (store : Store),
      sendPost false ok a store = (false, store))
    ∧ ∀ (f : Article → Bool) (ok : Bool) (arts : List Article) (store : Store),
        (sendLoop f ok arts store).1
          = arts.filter fun a => decide (3 ≤ a.it_score) && f a :=
  ⟨fun _ _ _ => rfl, fun f ok arts store => sendLoop_sent_eq_filter f ok arts store⟩

/-- C8: once `save_post` succeeds for a fingerprint, `is_post_sent`
stays true across any further `save_post` call; saving an
already-recorded fingerprint is an error-free no-op returning a falsy
row id; and the row count for a fingerprint never exceeds
`max 1 (previous count)` — no second record is ever created. -/
theorem C8_dedup_monotone_idempotent :
    ∀ (p q : SentPost) (ok : Bool) (h : String) (store : Store),
      (isPostSent (savePost true p store).2 p.content_hash = true)
      ∧ (isPostSent store h = true → isPostSent (savePost ok q store).2 h = true)
      ∧ (isPostSent store p.content_hash = true → savePost true p store = (false, store))
      ∧ countHash (savePost true p store).2 p.content_hash
          = max 1 (countHash store p.content_hash) := by
  intro p q ok h store
  refine ⟨isPostSent_savePost_self p store,
    fun hm => isPostSent_mono_savePost hm ok q, fun hm => by simp [savePost, hm], ?_⟩
  by_cases hm : isPostSent store p.content_hash = true
  · obtain ⟨x, hxmem, hxh⟩ := List.any_eq_true.mp hm
    have h1 : 0 < countHash store p.content_hash :=
      List.length_pos.mpr (List.ne_nil_of_mem (List.mem_filter.mpr ⟨hxmem, hxh⟩))
    simp only [savePost, hm, if_true, Bool.not_true, Bool.false_eq_true, if_false]
    omega
  · have h0 : countHash store p.content_hash = 0 := by
      simp only [isPostSent, List.any_eq_true, not_exists] at hm
      simp only [countHash, List.length_eq_zero, List.filter_eq_nil_iff]
      intro x hx hbe
      exact hm x ⟨hx, hbe⟩
    simp [savePost, hm, countHash, List.filter_cons]
    unfold countHash at h0
    omega

/-- C8 witness: monotonicity and the duplicate no-op at a concrete
store holding one record. -/
theorem C8_dedup_monotone_idempotent_witness :
    isPostSent (savePost true sentFix [sentFix]).2 sentFix.content_hash = true
    ∧ savePost true sentFix [sentFix] = (false, [sentFix]) :=
  ⟨(C8_dedup_monotone_idempotent sentFix sentFix true sentFix.content_hash [sentFix]).2.1
      (by decide),
   (C8_dedup_monotone_idempotent sentFix sentFix true sentFix.content_hash [sentFix]).2.2.1
      (by decide)⟩

/-- C9: an erroring source contributes nothing and never aborts the
remaining sources, wherever it sits in the source list; concretely,
with source A erroring and source B returning 5 relevant entries, the
candidate list holds B's 5 articles rather than zero. -/
theorem C9_partial_source_failure_isolation :
    (∀ (pre post : List (FeedConfig × FetchResult)) (cfg : FeedConfig) (store : Store),
      fetchArticles (pre ++ (cfg, .err) :: post) store = fetchArticles (pre ++ post) store)
    ∧ (fetchArticles [(cfgA, .err), (cfgB, .ok entriesFive)] []).length = 5 := by
  refine ⟨fun pre post cfg store => ?_, by decide⟩
  unfold fetchArticles
  simp

/-- C10: an entry is relevant exactly at the configured threshold — a
combined text scoring `min_score` passes `is_it_related`, one scoring
`min_score - 1` does not — and the delivery loop only ever sends
articles with `it_score ≥ 3` (the hard-coded `min_score` in `run`). -/
theorem C10_threshold_boundary :
    ∀ (title description : String) (m : Nat),
      (calculateItScore (title ++ " " ++ description) = m →
        isItRelated title description m = true)
      ∧ (calculateItScore (title ++ " " ++ description) + 1 = m →
        isItRelated title description m = false)
      ∧ ∀ (f : Article → Bool) (ok : Bool) (arts : List Article) (store : Store)
          (a : Article), a ∈ (sendLoop f ok arts store).1 → 3 ≤ a.it_score := by
  intro t d m
  refine ⟨fun hs => by simp [isItRelated, hs], fun hs => ?_, ?_⟩
  · subst hs
    simp [isItRelated]
  · intro f ok arts store a ha
    rw [sendLoop_sent_eq_filter] at ha
    have h2 := List.of_mem_filter ha
    simp at h2
    exact h2.1

/-- C10 witness: a text scoring exactly 3 is eligible at `min_score =
3` and ineligible at 4, and a concrete loop pass only sent an article
with score ≥ 3. -/
theorem C10_threshold_boundary_witness :
    isItRelated "docker kubernetes devops" "" 3 = true
    ∧ isItRelated "docker kubernetes devops" "" 4 = false
    ∧ 3 ≤ artFix.it_score :=
  ⟨(C10_threshold_boundary "docker kubernetes devops" "" 3).1 (by decide),
   (C10_threshold_boundary "docker kubernetes devops" "" 4).2.1 (by decide),
   (C10_threshold_boundary "" "" 0).2.2 (fun _ => true) true [artFix] [] artFix (by decide)⟩

def eHtml : RawEntry :=
  { title := some "<b>A</b>", summary := some "x", link := "l", published := none }

def ePlain : RawEntry :=
  { title := some "A", summary := some "x", link := "l", published := none }

/-- C2, counterexample: two entries whose titles normalize to the same
text (`<b>A</b>` vs `A`) and whose bodies are identical receive
different fingerprints, because `content_for_hash` concatenates the
*raw* title (never passed through `_clean_html`) with the cleaned
description prefix. -/
theorem C2_counterexample :
    cleanHtml "<b>A</b>" = cleanHtml "A"
    ∧ eHtml.summary = ePlain.summary
    ∧ fingerprintOfEntry eHtml ≠ fingerprintOfEntry ePlain :=
  ⟨by decide, rfl, by decide⟩

/-- C2, amended: the fingerprint is MD5 over the raw title concatenated
with the first 500 characters of the normalized body, so entries with
equal raw titles whose normalized bodies agree on their 500-character
prefix hash identically even when the raw body markup differs; equality
of *normalized titles* is not sufficient. -/
theorem C2_fingerprint_normalized_body_prefix :
    ∀ (title d1 d2 : String),
      (cleanHtml d1).data.take 500 = (cleanHtml d2).data.take 500 →
      contentHash title (cleanHtml d1) = contentHash title (cleanHtml d2) := by
  intro t d1 d2 hp
  unfold contentHash
  rw [hp]

/-- C2 witness: two raw bodies with different markup but the same
normalized text produce the same fingerprint under a shared title. -/
theorem C2_fingerprint_normalized_body_prefix_witness :
    (cleanHtml "x <i>y</i>").data.take 500 = (cleanHtml " x y ").data.take 500
    ∧ contentHash "T" (cleanHtml "x <i>y</i>") = contentHash "T" (cleanHtml " x y ") :=
  ⟨by decide, C2_fingerprint_normalized_body_prefix "T" "x <i>y</i>" " x y " (by decide)⟩

/-- A description of length 601 whose last sentence terminator sits at
index 410: above the code's threshold 400 but below the spec's 70% of
600 (= 420). -/
def exLong : String := ⟨List.replicate 410 'a' ++ '.' :: List.replicate 190 'b'⟩

/-- C4, counterexample: on `exLong` the code cuts at the sentence
terminator (offset 410 > 400) and appends no ellipsis, while the
spec-modelled `truncate` (70% rule, ellipsis in both cases) keeps the
raw 600-character prefix plus `"..."`; the code also has no `max_len`
parameter at all — 600 and 400 are hard-coded. -/
theorem C4_counterexample :
    truncateDescription exLong = ⟨List.replicate 410 'a' ++ ['.']⟩
    ∧ truncateSpec exLong 600 = ⟨exLong.data.take 600⟩ ++ "..."
    ∧ truncateDescription exLong ≠ truncateSpec exLong 600 :=
  ⟨by decide, by decide, by decide⟩

/-- C4, amended: the description truncation is fixed at `max_len = 600`
with sentence threshold 400 (two thirds, not 70%): text of length ≤ 600
is unchanged; otherwise the text is cut at 600, and if the last
'.'/'!'/'?' of that prefix sits at an index above 400 the cut keeps the
terminator and appends no ellipsis, else the 600-character prefix gets
`"..."`. -/
theorem C4_truncate_600_threshold_400 :
    ∀ s : String,
      (s.length ≤ 600 → truncateDescription s = s)
      ∧ (600 < s.length → lastTermIdx (s.data.take 600) = none →
          truncateDescription s = ⟨s.data.take 600⟩ ++ "...")
      ∧ ∀ i, 600 < s.length → lastTermIdx (s.data.take 600) = some i →
          (400 < i → truncateDescription s = ⟨(s.data.take 600).take (i + 1)⟩)
          ∧ (i ≤ 400 → truncateDescription s = ⟨s.data.take 600⟩ ++ "...") := by
  intro s
  refine ⟨fun h => by simp [truncateDescription, h],
    fun h hn => ?_, fun i h hi => ⟨fun h4 => ?_, fun h4 => ?_⟩⟩
  · simp [truncateDescription, Nat.not_le.mpr h, hn]
  · simp [truncateDescription, Nat.not_le.mpr h, hi, h4]
  · simp [truncateDescription, Nat.not_le.mpr h, hi, Nat.not_lt.mpr h4]

def exShort : String := ⟨List.replicate 600 'd'⟩

def exNoTerm : String := ⟨List.replicate 700 'c'⟩

def exLate : String := ⟨List.replicate 450 'a' ++ '!' :: List.replicate 150 'b'⟩

def exEarly : String := ⟨List.replicate 300 'a' ++ '.' :: List.replicate 301 'b'⟩

/-- C4 witness: all four truncation branches at concrete inputs. -/
theorem C4_truncate_600_threshold_400_witness :
    truncateDescription exShort = exShort
    ∧ truncateDescription exNoTerm = ⟨exNoTerm.data.take 600⟩ ++ "..."
    ∧ truncateDescription exLate = ⟨(exLate.data.take 600).take 451⟩
    ∧ truncateDescription exEarly = ⟨exEarly.data.take 600⟩ ++ "..." :=
  ⟨(C4_truncate_600_threshold_400 exShort).1 (by decide),
   (C4_truncate_600_threshold_400 exNoTerm).2.1 (by decide) (by decide),
   ((C4_truncate_600_threshold_400 exLate).2.2 450 (by decide) (by decide)).1 (by decide),
   ((C4_truncate_600_threshold_400 exEarly).2.2 300 (by decide) (by decide)).2 (by decide)⟩

/-- Lexicographic order on character lists (the order of ISO-style date
strings agrees with chronological order under it). -/
def charListLe : List Char → List Char → Bool
  | [], _ => true
  | _ :: _, [] => false
  | a :: as, b :: bs => if a = b then charListLe as bs else decide (a < b)

/-- Modelled from the spec: the candidate ordering of §4.6 step 2 —
score descending, ties by published timestamp descending (the ISO-style
`published` strings compare lexicographically, which agrees with
chronological order; the further source-order tie-break only matters
for equal timestamps and is relaxed to `True` on equal strings). -/
def claimSortLe (x y : Article) : Prop :=
  y.it_score < x.it_score
    ∨ (x.it_score = y.it_score ∧ charListLe y.published.data x.published.data = true)

instance : DecidableRel claimSortLe := fun x y => by
  unfold claimSortLe; exact inferInstance

/-- C5, counterexample: two equal-score candidates, the older one
(published 2024-01-01) listed before the newer one (2024-06-01): the
code's sort (score only, stable) keeps the older first, violating the
claimed timestamp-descending tie-break. -/
theorem C5_counterexample :
    ((fetchArticles [(cfgB, .ok [eAlpha, eBeta])] []).map fun a => (a.it_score, a.published))
        = [(3, "2024-01-01"), (3, "2024-06-01")]
    ∧ ¬ List.Pairwise claimSortLe (fetchArticles [(cfgB, .ok [eAlpha, eBeta])] []) :=
  ⟨by decide, by decide⟩

/-- C5, amended: the candidate list is sorted by relevance score
descending only; the sort is a permutation of the fetched candidates
and is stable, so equal-score candidates keep their original fetch
order (source declaration order, then per-source entry order); the
published timestamp is not consulted. -/
theorem C5_sort_score_desc_stable :
    ∀ l : List Article,
      List.Sorted scoreGe (sortArticles l)
      ∧ (sortArticles l).Perm l
      ∧ ∀ c, (sortArticles l).filter (fun x => decide (x.it_score = c))
          = l.filter (fun x => decide (x.it_score = c)) :=
  fun l => ⟨List.sorted_insertionSort scoreGe l, List.perm_insertionSort scoreGe l,
    fun c => filter_score_sortArticles c l⟩

/-- C6: with the store healthy, no fingerprint delivered (and hence
recorded) by a first `run()` is delivered again by an immediately
following `run()` over the same feed snapshot, whatever the transport
outcomes of either run: the second run's dedup check (`is_post_sent`
inside `fetch_articles`) filters out everything the first run
recorded. -/
theorem C6_second_run_skips_recorded :
    ∀ (feeds : List (FeedConfig × FetchResult)) (f1 f2 : Article → Bool) (store0 : Store),
      ((runM feeds f2 true (runM feeds f1 true store0).2).1.map
        (fun a => a.content_hash)).filter
          (fun h => decide (h ∈ (runM feeds f1 true store0).1.map
            fun a => a.content_hash)) = [] := by
  intro feeds f1 f2 store0
  rw [List.filter_eq_nil_iff]
  intro h hmem
  simp only [decide_eq_true_eq]
  intro hmem1
  obtain ⟨a2, ha2, rfl⟩ := List.mem_map.mp hmem
  obtain ⟨a1, ha1, heq⟩ := List.mem_map.mp hmem1
  unfold runM at ha1 ha2
  have hnot : isPostSent (runM feeds f1 true store0).2 a2.content_hash = false :=
    mem_fetchArticles_not_sent (List.take_subset 3 _ (sendLoop_sent_mem ha2))
  have hyes : isPostSent (runM feeds f1 true store0).2 a1.content_hash = true :=
    sendLoop_sent_recorded _ _ _ _ ha1
  rw [heq] at hyes
  rw [hyes] at hnot
  exact absurd hnot (by simp)

